import Mathlib

/-!
Verification of the widget synchronization consumer (`consumer.py`).

The development shallowly embeds the program: the three service clients
(`SQSClient`, `S3Client`, `DynamoDBClient`) become pure functions over explicit
state (the queue look-ahead cache, an association list modelling the S3 bucket,
an association list modelling the DynamoDB table), boto3 calls that may raise
are parametrised by explicit fault flags, and `Consumer.process_widget_request`
becomes a function returning `Except` (an uncaught exception) or the new system
state together with the reported outcome.
-/

deriving instance DecidableEq for Except

namespace WidgetConsumer

/-- One entry of a request's `otherAttributes` list: `{name, value}`. -/
structure WAttr where
  name : String
  value : String
deriving DecidableEq

/-- A parsed widget change request (the JSON body of a message).
Field `type` is the request kind string (`"create"`, `"delete"`, `"update"`, or
anything else). -/
structure WidgetRequest where
  type : String
  widgetId : String
  owner : String
  label : String
  description : String
  otherAttributes : List WAttr
deriving DecidableEq

/-- What `get_next_widget_request` hands to the consumer: the parsed request
plus, for the SQS variant, the receipt handle (`'receipt_handle' in
request_data` is modelled by `receipt = some _`). -/
structure RequestData where
  request : WidgetRequest
  receipt : Option String
deriving DecidableEq

/-! ### Owner normalization (consumer.py line 168)

`owner = request['owner'].replace(' ', '-').lower()`: replace spaces with
hyphens, then lowercase.  Both steps are character-wise maps. -/

/-- One character of `str.replace(' ', '-')`. -/
def replaceSpaceChar (c : Char) : Char :=
  if c = ' ' then '-' else c

/-- `request['owner'].replace(' ', '-').lower()`. -/
def slug (s : String) : String :=
  String.mk ((s.data.map replaceSpaceChar).map Char.toLower)

/-! ### SQS source reader (consumer.py lines 12-59)

`SQSClient` keeps `message_cache : List[Dict]`.  A message carries a JSON body
(modelled already parsed, since `json.loads` is applied to every returned body)
and a receipt handle. -/

/-- One SQS message: parsed `Body` plus `ReceiptHandle`. -/
structure SQSMessage where
  body : WidgetRequest
  receiptHandle : String
deriving DecidableEq

/-- The `request_data` dict built from a message. -/
def messageToRequestData (m : SQSMessage) : RequestData :=
  { request := m.body, receipt := some m.receiptHandle }

namespace SQSClient

/-- `SQSClient.get_next_widget_request`.  `cache` is `self.message_cache`;
`received` is the `Messages` list the `receive_message` call would return if
issued (empty when the response has no `Messages` key).  Returns the optional
request data, the new cache, and whether a `receive_message` call was issued. -/
def get_next_widget_request (cache : List SQSMessage) (received : List SQSMessage) :
    Option RequestData × List SQSMessage × Bool :=
  match cache with
  | m :: rest => (some (messageToRequestData m), rest, false)
  | [] =>
    match received with
    | [] => (none, [], true)
    | m :: rest => (some (messageToRequestData m), rest, true)

/-- Drive `get_next_widget_request` for `n` successive calls.  `batches` is the
environment: the successive `Messages` lists the queue returns, one consumed per
issued `receive_message` call.  Returns the per-call results (optional request
data, receive-issued flag) and the final cache. -/
def runFetches : Nat → List SQSMessage → List (List SQSMessage) →
    List (Option RequestData × Bool) × List SQSMessage
  | 0, cache, _ => ([], cache)
  | n + 1, m :: rest, batches =>
    let r := get_next_widget_request (m :: rest) []
    let t := runFetches n r.2.1 batches
    ((r.1, r.2.2) :: t.1, t.2)
  | n + 1, [], [] =>
    let r := get_next_widget_request [] []
    let t := runFetches n r.2.1 []
    ((r.1, r.2.2) :: t.1, t.2)
  | n + 1, [], b :: bs =>
    let r := get_next_widget_request [] b
    let t := runFetches n r.2.1 bs
    ((r.1, r.2.2) :: t.1, t.2)

end SQSClient

/-! ### S3 client (consumer.py lines 61-107)

A bucket is an association list from keys to stored widget documents (S3 keys
are unique; `put_object` overwrites, `delete_object` removes).  The document
stored by `put_object(..., Body=json.dumps(widget))` is modelled as the widget
payload itself. -/

/-- The contents of one S3 bucket. -/
abbrev S3Store := List (String × WidgetRequest)

/-- Lookup of the object stored under `key` (used to model `get_object` /
`head_object` success). -/
def s3Lookup : S3Store → String → Option WidgetRequest
  | [], _ => none
  | p :: rest, key => if p.1 = key then some p.2 else s3Lookup rest key

/-- `put_object`: overwrite the key if present, else add it. -/
def s3PutObject : S3Store → String → WidgetRequest → S3Store
  | [], key, body => [(key, body)]
  | p :: rest, key, body =>
    if p.1 = key then (key, body) :: rest else p :: s3PutObject rest key body

/-- `delete_object`: remove the key (a no-op when the key is absent). -/
def s3DeleteObject : S3Store → String → S3Store
  | [], _ => []
  | p :: rest, key =>
    if p.1 = key then s3DeleteObject rest key else p :: s3DeleteObject rest key

/-- The S3 key `f'widgets/{owner}/{widget_id}'`. -/
def widgetKey (owner widgetId : String) : String :=
  "widgets/" ++ owner ++ "/" ++ widgetId

namespace S3Client

/-- `S3Client.get_next_widget_request` (the object-store source reader):
`list_objects_v2` on an empty bucket returns no `Contents` → `None`; otherwise
take `Contents[0]`, `get_object` its body, `delete_object` the key, and return
the parsed request (no receipt handle).  Returns the optional request data and
the new bucket contents. -/
def get_next_widget_request (bucket : S3Store) : Option RequestData × S3Store :=
  match bucket with
  | [] => (none, [])
  | (key, body) :: rest =>
    (some { request := body, receipt := none }, s3DeleteObject ((key, body) :: rest) key)

/-- `S3Client.save_widget`: unconditional `put_object` under
`widgets/{owner}/{widget_id}`. -/
def save_widget (bucket : S3Store) (widget : WidgetRequest) (owner widgetId : String) :
    S3Store :=
  s3PutObject bucket (widgetKey owner widgetId) widget

/-- `S3Client.delete_widget`: `delete_object` inside `try/except`, returning a
boolean.  `deleteRaises` injects a transport error on the `delete_object` call
(the only way the call can fail, since S3 deletion of an absent key succeeds). -/
def delete_widget (deleteRaises : Bool) (bucket : S3Store) (owner widgetId : String) :
    S3Store × Bool :=
  if deleteRaises then (bucket, false)
  else (s3DeleteObject bucket (widgetKey owner widgetId), true)

/-- `S3Client.update_widget`: `head_object` existence probe (raises when the
object is absent, or on a transport error injected by `headRaises`), then
`put_object` (transport error injected by `putRaises`), inside `try/except`.
Returns the new bucket, the boolean result, and whether the `put_object`
overwrite call was attempted. -/
def update_widget (headRaises putRaises : Bool) (bucket : S3Store)
    (widget : WidgetRequest) (owner widgetId : String) : S3Store × Bool × Bool :=
  let key := widgetKey owner widgetId
  if headRaises ∨ (s3Lookup bucket key).isNone then (bucket, false, false)
  else if putRaises then (bucket, false, true)
  else (s3PutObject bucket key widget, true, true)

end S3Client

/-! ### DynamoDB client (consumer.py lines 109-156)

The table is an association list from the composite primary key
`(widget_id, owner)` to the flattened item.  `put_item` keys the item by its own
`widget_id` and `owner` attributes (as DynamoDB does). -/

/-- A flattened DynamoDB item: ordered field/value pairs (a Python dict). -/
abbrev DynamoItem := List (String × String)

/-- Python dict read `item[k]` (as an `Option`). -/
def getField : DynamoItem → String → Option String
  | [], _ => none
  | p :: rest, k => if p.1 = k then some p.2 else getField rest k

/-- Python dict assignment `item[k] = v`: overwrite in place, else append. -/
def setField : DynamoItem → String → String → DynamoItem
  | [], k, v => [(k, v)]
  | p :: rest, k, v => if p.1 = k then (k, v) :: rest else p :: setField rest k v

/-- The contents of the DynamoDB table. -/
abbrev DynamoTable := List ((String × String) × DynamoItem)

/-- The composite primary key carried by an item. -/
def itemKey (item : DynamoItem) : String × String :=
  ((getField item "widget_id").getD "", (getField item "owner").getD "")

/-- `put_item`: upsert keyed by the item's own key attributes. -/
def putItem : DynamoTable → DynamoItem → DynamoTable
  | [], item => [(itemKey item, item)]
  | e :: rest, item =>
    if e.1 = itemKey item then (itemKey item, item) :: rest else e :: putItem rest item

/-- `get_item` by composite key. -/
def getItem : DynamoTable → String × String → Option DynamoItem
  | [], _ => none
  | e :: rest, k => if e.1 = k then some e.2 else getItem rest k

/-- `delete_item` by composite key (a no-op when the key is absent). -/
def deleteItem : DynamoTable → String × String → DynamoTable
  | [], _ => []
  | e :: rest, k =>
    if e.1 = k then deleteItem rest k else e :: deleteItem rest k

namespace DynamoDBClient

/-- The `dynamo_item` dict built by `DynamoDBClient.save_widget`: the four
required fields in insertion order, then one dict assignment per
`otherAttributes` entry. -/
def widgetItem (widget : WidgetRequest) : DynamoItem :=
  let base : DynamoItem :=
    [("widget_id", widget.widgetId), ("owner", widget.owner),
     ("label", widget.label), ("description", widget.description)]
  widget.otherAttributes.foldl (fun item a => setField item a.name a.value) base

/-- `DynamoDBClient.save_widget`: build the flattened item and `put_item` it. -/
def save_widget (t : DynamoTable) (widget : WidgetRequest) : DynamoTable :=
  putItem t (widgetItem widget)

/-- `DynamoDBClient.delete_widget`: `delete_item` on key
`(widget_id, owner)` inside `try/except`, returning a boolean.  `deleteRaises`
injects a transport error (DynamoDB deletion of an absent key succeeds). -/
def delete_widget (deleteRaises : Bool) (t : DynamoTable) (widgetId owner : String) :
    DynamoTable × Bool :=
  if deleteRaises then (t, false)
  else (deleteItem t (widgetId, owner), true)

/-- `DynamoDBClient.update_widget`: `get_item` point read (its result is
unused, and an absent item does not raise — only a transport error injected by
`getRaises` does), then `save_widget`, inside `try/except`. -/
def update_widget (getRaises putRaises : Bool) (t : DynamoTable)
    (widget : WidgetRequest) : DynamoTable × Bool :=
  if getRaises then (t, false)
  else if putRaises then (t, false)
  else (save_widget t widget, true)

end DynamoDBClient

/-! ### The consumer (consumer.py lines 158-206) -/

/-- Fault injection for the boto3 calls that sit inside (or, for the create
path, outside) a `try/except`.  `true` means the call raises. -/
structure Faults where
  s3DeleteRaises : Bool
  s3HeadRaises : Bool
  s3UpdatePutRaises : Bool
  dynDeleteRaises : Bool
  dynGetRaises : Bool
  dynUpdatePutRaises : Bool
  s3CreatePutRaises : Bool
  dynCreatePutRaises : Bool
deriving DecidableEq

/-- All backend calls succeed. -/
def noFaults : Faults :=
  ⟨false, false, false, false, false, false, false, false⟩

/-- The log line `process_widget_request` ends the dispatch with. -/
inductive Report where
  | createOk
  | deleteOk
  | deleteFail
  | updateOk
  | updateFail
  | ignored
deriving DecidableEq

/-- The state `process_widget_request` acts on: the widget bucket, the
DynamoDB table, and the receipt handles acknowledged so far (each
`delete_message` call appends one). -/
structure SysState where
  s3 : S3Store
  dynamo : DynamoTable
  acked : List String
deriving DecidableEq

namespace Consumer

/-- `Consumer.process_widget_request`.  `isSQS` is
`isinstance(self.source_client, SQSClient)`.  An uncaught exception (a raising
boto3 call on the create path, which has no `try/except`) is `Except.error`
carrying the state at the point of the raise; otherwise `Except.ok` returns the
new state and the reported outcome. -/
def process_widget_request (isSQS : Bool) (f : Faults) (rd : RequestData)
    (st : SysState) : Except SysState (SysState × Report) :=
  let req := rd.request
  let owner := slug req.owner
  let wid := req.widgetId
  let dispatched : Except SysState (SysState × Report) :=
    if req.type = "create" then
      if f.s3CreatePutRaises then Except.error st
      else
        let st1 : SysState := { st with s3 := S3Client.save_widget st.s3 req owner wid }
        if f.dynCreatePutRaises then Except.error st1
        else Except.ok ({ st1 with dynamo := DynamoDBClient.save_widget st1.dynamo req },
          Report.createOk)
    else if req.type = "delete" then
      let rs3 := S3Client.delete_widget f.s3DeleteRaises st.s3 owner wid
      let rdy := DynamoDBClient.delete_widget f.dynDeleteRaises st.dynamo wid owner
      Except.ok ({ st with s3 := rs3.1, dynamo := rdy.1 },
        if rs3.2 && rdy.2 then Report.deleteOk else Report.deleteFail)
    else if req.type = "update" then
      let rs3 := S3Client.update_widget f.s3HeadRaises f.s3UpdatePutRaises st.s3 req owner wid
      let rdy := DynamoDBClient.update_widget f.dynGetRaises f.dynUpdatePutRaises st.dynamo req
      Except.ok ({ st with s3 := rs3.1, dynamo := rdy.1 },
        if rs3.2.1 && rdy.2 then Report.updateOk else Report.updateFail)
    else
      Except.ok (st, Report.ignored)
  match dispatched with
  | Except.error st1 => Except.error st1
  | Except.ok (st1, rep) =>
    match isSQS, rd.receipt with
    | true, some tok => Except.ok ({ st1 with acked := st1.acked ++ [tok] }, rep)
    | _, _ => Except.ok (st1, rep)

end Consumer

/-- The receipt handles `process_widget_request` acknowledges: one
`delete_message` call when the source is the SQS client and the request data
carries a receipt handle, none otherwise. -/
def ackList (isSQS : Bool) (receipt : Option String) : List String :=
  match isSQS, receipt with
  | true, some tok => [tok]
  | _, _ => []

/-! ### Concrete fixtures (the spec's John Doe scenario) -/

/-- The spec's sample create request. -/
def wJohn : WidgetRequest :=
  { type := "create", widgetId := "123", owner := "John Doe", label := "L",
    description := "D", otherAttributes := [{ name := "color", value := "red" }] }

/-- A delete request for the same widget and owner. -/
def delJohn : WidgetRequest :=
  { type := "delete", widgetId := "123", owner := "John Doe", label := "",
    description := "", otherAttributes := [] }

/-- A request whose kind is none of create/update/delete. -/
def unknownJohn : WidgetRequest :=
  { wJohn with type := "frobnicate" }

/-- Empty system state. -/
def st0 : SysState := { s3 := [], dynamo := [], acked := [] }

/-- Sample queue messages. -/
def msgA : SQSMessage := { body := wJohn, receiptHandle := "r1" }

def msgB : SQSMessage := { body := delJohn, receiptHandle := "r2" }

def msgC : SQSMessage := { body := wJohn, receiptHandle := "r3" }

/-! ## Theorems -/

/-! ### Character-level facts about owner normalization -/

theorem char_toNat_ofNat_valid {n : Nat} (h : n < 55296) : (Char.ofNat n).toNat = n := by
  have hv : n.isValidChar := Or.inl h
  unfold Char.ofNat
  rw [dif_pos hv]
  rfl

theorem char_toLower_toLower (c : Char) : c.toLower.toLower = c.toLower := by
  unfold Char.toLower
  by_cases h : c.toNat ≥ 65 ∧ c.toNat ≤ 90
  · rw [if_pos h]
    have ht : (Char.ofNat (c.toNat + 32)).toNat = c.toNat + 32 :=
      char_toNat_ofNat_valid (by omega)
    rw [if_neg (by rw [ht]; omega)]
  · rw [if_neg h, if_neg h]

theorem char_toLower_ne_space (c : Char) (h : c ≠ ' ') : c.toLower ≠ ' ' := by
  unfold Char.toLower
  by_cases hc : c.toNat ≥ 65 ∧ c.toNat ≤ 90
  · rw [if_pos hc]
    intro heq
    have ht : (Char.ofNat (c.toNat + 32)).toNat = c.toNat + 32 :=
      char_toNat_ofNat_valid (by omega)
    have hsp : (' ' : Char).toNat = c.toNat + 32 := by rw [← heq, ht]
    have h32 : (' ' : Char).toNat = 32 := by decide
    omega
  · rw [if_neg hc]
    exact h

theorem replaceSpaceChar_ne_space (c : Char) : replaceSpaceChar c ≠ ' ' := by
  unfold replaceSpaceChar
  by_cases h : c = ' '
  · rw [if_pos h]
    decide
  · rw [if_neg h]
    exact h

theorem replaceSpaceChar_of_ne (x : Char) (h : x ≠ ' ') : replaceSpaceChar x = x := by
  unfold replaceSpaceChar
  rw [if_neg h]

theorem slugChar_idem (c : Char) :
    (replaceSpaceChar (replaceSpaceChar c).toLower).toLower = (replaceSpaceChar c).toLower := by
  have h1 : (replaceSpaceChar c).toLower ≠ ' ' :=
    char_toLower_ne_space _ (replaceSpaceChar_ne_space c)
  rw [replaceSpaceChar_of_ne _ h1, char_toLower_toLower]

theorem slug_data_idem (l : List Char) :
    ((((l.map replaceSpaceChar).map Char.toLower).map replaceSpaceChar).map Char.toLower) =
      (l.map replaceSpaceChar).map Char.toLower := by
  induction l with
  | nil => rfl
  | cons c rest ih =>
    simp only [List.map_cons, List.cons.injEq]
    exact ⟨slugChar_idem c, ih⟩

/-- Claim C6: owner normalization is total (it is a function of the whole
string type) and idempotent: `slug (slug s) = slug s` for every string `s`,
and `slug "John Doe" = "john-doe"`. -/
theorem slug_total_idempotent :
    (∀ s : String, slug (slug s) = slug s) ∧ slug "John Doe" = "john-doe" := by
  constructor
  · intro s
    unfold slug
    exact congrArg String.mk (slug_data_idem s.data)
  · decide

/-! ### Queue source reader: FIFO buffering and the cache bound -/

theorem runFetches_cache_drain (cache : List SQSMessage) (batches : List (List SQSMessage)) :
    SQSClient.runFetches cache.length cache batches =
      (cache.map (fun m => (some (messageToRequestData m), false)), []) := by
  induction cache with
  | nil => rfl
  | cons m rest ih =>
    simp [SQSClient.runFetches, SQSClient.get_next_widget_request, ih]

/-- Claim C3: when a `receive_message` response delivers messages
`m :: rest` while the look-ahead cache is empty, the first
`get_next_widget_request` call issues the receive and returns the first
message with its receipt handle, and the following `rest.length` calls return
the buffered remainder in the original order without issuing another receive
call; the cache is exhausted at the end. -/
theorem sqs_fifo_buffering (m : SQSMessage) (rest : List SQSMessage)
    (bs : List (List SQSMessage)) :
    SQSClient.runFetches (m :: rest).length [] ((m :: rest) :: bs) =
      ((some (messageToRequestData m), true) ::
        rest.map (fun x => (some (messageToRequestData x), false)), []) := by
  simp [SQSClient.runFetches, SQSClient.get_next_widget_request,
    runFetches_cache_drain rest bs]

theorem runFetches_cache_bound (n : Nat) (cache : List SQSMessage)
    (batches : List (List SQSMessage)) (hc : cache.length ≤ 9)
    (hb : ∀ b ∈ batches, b.length ≤ 10) :
    ((SQSClient.runFetches n cache batches).2).length ≤ 9 := by
  induction n generalizing cache batches with
  | zero => simpa [SQSClient.runFetches] using hc
  | succ n ih =>
    match cache, batches with
    | m :: rest, batches =>
      simp only [SQSClient.runFetches, SQSClient.get_next_widget_request]
      exact ih rest batches (by simp at hc; omega) hb
    | [], [] =>
      simp only [SQSClient.runFetches, SQSClient.get_next_widget_request]
      exact ih [] [] (by simp) (by simp)
    | [], b :: bs =>
      simp only [SQSClient.runFetches, SQSClient.get_next_widget_request]
      match b with
      | [] =>
        exact ih [] bs (by simp) (fun x hx => hb x (List.mem_cons_of_mem _ hx))
      | mb :: restb =>
        refine ih restb bs ?_ (fun x hx => hb x (List.mem_cons_of_mem _ hx))
        have := hb (mb :: restb) (List.mem_cons_self _ _)
        simp at this
        omega

/-- Claim C10: starting from the empty look-ahead cache, after any number of
`get_next_widget_request` calls against any environment whose
`receive_message` responses each hold at most 10 messages (the
`MaxNumberOfMessages=10` bound), the cache holds at most 9 messages. -/
theorem sqs_cache_bound (n : Nat) (batches : List (List SQSMessage))
    (hb : ∀ b ∈ batches, b.length ≤ 10) :
    ((SQSClient.runFetches n [] batches).2).length ≤ 9 :=
  runFetches_cache_bound n [] batches (by simp) hb

theorem sqs_cache_bound_witness :
    ((SQSClient.runFetches 2 [] [[msgA, msgB, msgC]]).2).length ≤ 9 :=
  sqs_cache_bound 2 [[msgA, msgB, msgC]] (by decide)

/-! ### Object-store source reader -/

theorem s3DeleteObject_eq_of_forall_ne (s : S3Store) (key : String)
    (h : ∀ p ∈ s, p.1 ≠ key) : s3DeleteObject s key = s := by
  induction s with
  | nil => rfl
  | cons p rest ih =>
    have hp : p.1 ≠ key := h p (List.mem_cons_self _ _)
    simp only [s3DeleteObject, if_neg hp]
    rw [ih (fun q hq => h q (List.mem_cons_of_mem _ hq))]

/-- Claim C5: `S3Client.get_next_widget_request` on an empty bucket returns
nothing and leaves the bucket empty; on a non-empty bucket (with distinct
keys, as S3 guarantees) it returns exactly the first listed object parsed as a
request with no receipt handle, and deletes that key from the bucket, leaving
the remaining objects untouched. -/
theorem s3_source_fetch :
    (S3Client.get_next_widget_request [] = (none, [])) ∧
    (∀ (key : String) (body : WidgetRequest) (rest : S3Store),
      (∀ p ∈ rest, p.1 ≠ key) →
      S3Client.get_next_widget_request ((key, body) :: rest) =
        (some { request := body, receipt := none }, rest)) := by
  refine ⟨rfl, ?_⟩
  intro key body rest h
  simp [S3Client.get_next_widget_request, s3DeleteObject,
    s3DeleteObject_eq_of_forall_ne rest key h]

theorem s3_source_fetch_witness :
    S3Client.get_next_widget_request [("req1", wJohn)] =
      (some { request := wJohn, receipt := none }, []) :=
  s3_source_fetch.2 "req1" wJohn [] (by simp)

/-- Claim C7: `S3Client.update_widget` returns `false` without attempting the
overwrite whenever the `head_object` probe fails (the object is absent, or the
probe call raises), leaving the bucket unchanged; when the probe succeeds and
the `put_object` write succeeds it overwrites the key and returns `true`. -/
theorem s3_update_probe_gate (headRaises putRaises : Bool) (bucket : S3Store)
    (w : WidgetRequest) (owner wid : String) :
    (headRaises = true ∨ s3Lookup bucket (widgetKey owner wid) = none →
      S3Client.update_widget headRaises putRaises bucket w owner wid =
        (bucket, false, false)) ∧
    (headRaises = false → putRaises = false →
      (s3Lookup bucket (widgetKey owner wid)).isSome = true →
      S3Client.update_widget headRaises putRaises bucket w owner wid =
        (s3PutObject bucket (widgetKey owner wid) w, true, true)) := by
  constructor
  · intro h
    have hcond : headRaises = true ∨ (s3Lookup bucket (widgetKey owner wid)).isNone := by
      rcases h with h | h
      · exact Or.inl h
      · exact Or.inr (by simp [h])
    unfold S3Client.update_widget
    rcases hcond with h | h
    · rw [if_pos (Or.inl (by simp [h]))]
    · rw [if_pos (Or.inr h)]
  · intro h1 h2 h3
    unfold S3Client.update_widget
    rw [if_neg (by simp [h1, Option.isNone_iff_eq_none]; exact Option.isSome_iff_ne_none.mp h3),
      if_neg (by simp [h2])]

theorem s3_update_probe_gate_witness :
    S3Client.update_widget true false [] wJohn "john-doe" "123" = ([], false, false) :=
  (s3_update_probe_gate true false [] wJohn "john-doe" "123").1 (Or.inl rfl)

/-! ### Record flattening -/

theorem getField_setField_self (r : DynamoItem) (k v : String) :
    getField (setField r k v) k = some v := by
  induction r with
  | nil => simp [setField, getField]
  | cons p rest ih =>
    by_cases h : p.1 = k
    · simp [setField, h, getField]
    · simp [setField, h, getField, ih]

theorem getField_setField_ne (r : DynamoItem) (k v k2 : String) (h : k2 ≠ k) :
    getField (setField r k v) k2 = getField r k2 := by
  induction r with
  | nil => simp [setField, getField, Ne.symm h]
  | cons p rest ih =>
    by_cases hp : p.1 = k
    · simp [setField, hp, getField, Ne.symm h, hp ▸ Ne.symm h]
    · by_cases hp2 : p.1 = k2
      · simp [setField, hp, getField, hp2, h]
      · simp [setField, hp, getField, hp2, ih]

/-- The flattening fold used by `DynamoDBClient.widgetItem`. -/
theorem getField_fold_of_forall_ne (attrs : List WAttr) (r : DynamoItem) (k : String)
    (h : ∀ a ∈ attrs, a.name ≠ k) :
    getField (attrs.foldl (fun item a => setField item a.name a.value) r) k = getField r k := by
  induction attrs generalizing r with
  | nil => rfl
  | cons a rest ih =>
    simp only [List.foldl_cons]
    rw [ih (setField r a.name a.value) (fun b hb => h b (List.mem_cons_of_mem _ hb))]
    exact getField_setField_ne r a.name a.value k (h a (List.mem_cons_self _ _)).symm

theorem getField_fold_last (pre post : List WAttr) (a : WAttr) (r : DynamoItem)
    (h : ∀ b ∈ post, b.name ≠ a.name) :
    getField ((pre ++ a :: post).foldl (fun item x => setField item x.name x.value) r)
      a.name = some a.value := by
  rw [List.foldl_append, List.foldl_cons,
    getField_fold_of_forall_ne post _ a.name h, getField_setField_self]

/-- Claim C9: when an `otherAttributes` entry collides with a reserved record
field name, the flattened item's value for that field is the attribute's value
(last write wins in the flattening order), provided no later attribute writes
the same name again. -/
theorem record_collision_last_write_wins (w : WidgetRequest) (pre post : List WAttr)
    (a : WAttr) (hsplit : w.otherAttributes = pre ++ a :: post)
    (_hres : a.name = "widget_id" ∨ a.name = "owner" ∨ a.name = "label" ∨
      a.name = "description")
    (hlast : ∀ b ∈ post, b.name ≠ a.name) :
    getField (DynamoDBClient.widgetItem w) a.name = some a.value := by
  unfold DynamoDBClient.widgetItem
  rw [hsplit]
  exact getField_fold_last pre post a _ hlast

theorem record_collision_last_write_wins_witness :
    getField (DynamoDBClient.widgetItem
      { wJohn with otherAttributes := [{ name := "owner", value := "OVERRIDE" }] })
      "owner" = some "OVERRIDE" :=
  record_collision_last_write_wins
    { wJohn with otherAttributes := [{ name := "owner", value := "OVERRIDE" }] }
    [] [] { name := "owner", value := "OVERRIDE" } rfl (Or.inr (Or.inl rfl))
    (by simp)

/-! ### Lookup-after-write facts for the two stores -/

theorem s3Lookup_putObject_self (bucket : S3Store) (key : String) (w : WidgetRequest) :
    s3Lookup (s3PutObject bucket key w) key = some w := by
  induction bucket with
  | nil => simp [s3PutObject, s3Lookup]
  | cons p rest ih =>
    by_cases h : p.1 = key
    · simp [s3PutObject, h, s3Lookup]
    · simp [s3PutObject, h, s3Lookup, ih]

theorem getItem_putItem_self (t : DynamoTable) (item : DynamoItem) :
    getItem (putItem t item) (itemKey item) = some item := by
  induction t with
  | nil => simp [putItem, getItem]
  | cons e rest ih =>
    by_cases h : e.1 = itemKey item
    · simp [putItem, h, getItem]
    · simp [putItem, h, getItem, ih]

theorem getField_widgetItem_reserved (w : WidgetRequest)
    (hres : ∀ a ∈ w.otherAttributes,
      a.name ≠ "widget_id" ∧ a.name ≠ "owner" ∧ a.name ≠ "label" ∧ a.name ≠ "description") :
    getField (DynamoDBClient.widgetItem w) "widget_id" = some w.widgetId ∧
    getField (DynamoDBClient.widgetItem w) "owner" = some w.owner ∧
    getField (DynamoDBClient.widgetItem w) "label" = some w.label ∧
    getField (DynamoDBClient.widgetItem w) "description" = some w.description := by
  unfold DynamoDBClient.widgetItem
  refine ⟨?_, ?_, ?_, ?_⟩
  · rw [getField_fold_of_forall_ne _ _ _ (fun a ha => (hres a ha).1)]
    simp [getField]
  · rw [getField_fold_of_forall_ne _ _ _ (fun a ha => (hres a ha).2.1)]
    simp [getField]
  · rw [getField_fold_of_forall_ne _ _ _ (fun a ha => (hres a ha).2.2.1)]
    simp [getField]
  · rw [getField_fold_of_forall_ne _ _ _ (fun a ha => (hres a ha).2.2.2)]
    simp [getField]

theorem itemKey_widgetItem (w : WidgetRequest)
    (hres : ∀ a ∈ w.otherAttributes,
      a.name ≠ "widget_id" ∧ a.name ≠ "owner" ∧ a.name ≠ "label" ∧ a.name ≠ "description") :
    itemKey (DynamoDBClient.widgetItem w) = (w.widgetId, w.owner) := by
  obtain ⟨h1, h2, _, _⟩ := getField_widgetItem_reserved w hres
  unfold itemKey
  rw [h1, h2]
  rfl

/-! ### Evaluating `process_widget_request` on each request kind -/

theorem process_create_eq (isSQS : Bool) (rd : RequestData) (st : SysState)
    (hty : rd.request.type = "create") :
    Consumer.process_widget_request isSQS noFaults rd st =
      Except.ok ({ st with
          s3 := S3Client.save_widget st.s3 rd.request (slug rd.request.owner)
            rd.request.widgetId,
          dynamo := DynamoDBClient.save_widget st.dynamo rd.request,
          acked := st.acked ++ ackList isSQS rd.receipt }, Report.createOk) := by
  unfold Consumer.process_widget_request
  cases isSQS <;> cases hrec : rd.receipt <;> simp [hty, noFaults, ackList]

theorem process_delete_eq (isSQS : Bool) (f : Faults) (rd : RequestData) (st : SysState)
    (hty : rd.request.type = "delete") :
    Consumer.process_widget_request isSQS f rd st =
      Except.ok ({ st with
          s3 := (S3Client.delete_widget f.s3DeleteRaises st.s3 (slug rd.request.owner)
            rd.request.widgetId).1,
          dynamo := (DynamoDBClient.delete_widget f.dynDeleteRaises st.dynamo
            rd.request.widgetId (slug rd.request.owner)).1,
          acked := st.acked ++ ackList isSQS rd.receipt },
        if (S3Client.delete_widget f.s3DeleteRaises st.s3 (slug rd.request.owner)
              rd.request.widgetId).2 &&
            (DynamoDBClient.delete_widget f.dynDeleteRaises st.dynamo
              rd.request.widgetId (slug rd.request.owner)).2
        then Report.deleteOk else Report.deleteFail) := by
  unfold Consumer.process_widget_request
  cases isSQS <;> cases hrec : rd.receipt <;> simp [hty, ackList]

theorem process_update_eq (isSQS : Bool) (f : Faults) (rd : RequestData) (st : SysState)
    (hty : rd.request.type = "update") :
    Consumer.process_widget_request isSQS f rd st =
      Except.ok ({ st with
          s3 := (S3Client.update_widget f.s3HeadRaises f.s3UpdatePutRaises st.s3
            rd.request (slug rd.request.owner) rd.request.widgetId).1,
          dynamo := (DynamoDBClient.update_widget f.dynGetRaises f.dynUpdatePutRaises
            st.dynamo rd.request).1,
          acked := st.acked ++ ackList isSQS rd.receipt },
        if (S3Client.update_widget f.s3HeadRaises f.s3UpdatePutRaises st.s3
              rd.request (slug rd.request.owner) rd.request.widgetId).2.1 &&
            (DynamoDBClient.update_widget f.dynGetRaises f.dynUpdatePutRaises
              st.dynamo rd.request).2
        then Report.updateOk else Report.updateFail) := by
  unfold Consumer.process_widget_request
  cases isSQS <;> cases hrec : rd.receipt <;> simp [hty, ackList]

theorem process_unknown_eq (isSQS : Bool) (f : Faults) (rd : RequestData) (st : SysState)
    (h1 : rd.request.type ≠ "create") (h2 : rd.request.type ≠ "delete")
    (h3 : rd.request.type ≠ "update") :
    Consumer.process_widget_request isSQS f rd st =
      Except.ok ({ st with acked := st.acked ++ ackList isSQS rd.receipt },
        Report.ignored) := by
  unfold Consumer.process_widget_request
  cases isSQS <;> cases hrec : rd.receipt <;> simp [h1, h2, h3, ackList]

/-! ### The create invariant (claim C2) -/

/-- Claim C2: processing a create request (all backend calls succeeding)
stores the full request payload in the bucket under
`widgets/{slug(owner)}/{widgetId}`, and stores in the table, keyed by the
widget id and the request's original (un-slugged) owner string, the flattened
record carrying `widget_id`, `owner`, `label`, `description` from the request
plus one field per `otherAttributes` entry.  Attribute names are assumed
distinct and distinct from the four reserved field names. -/
theorem create_request_spec (isSQS : Bool) (rd : RequestData) (st : SysState)
    (hty : rd.request.type = "create")
    (hnodup : (rd.request.otherAttributes.map WAttr.name).Nodup)
    (hres : ∀ a ∈ rd.request.otherAttributes,
      a.name ≠ "widget_id" ∧ a.name ≠ "owner" ∧ a.name ≠ "label" ∧
        a.name ≠ "description") :
    ∃ st' : SysState,
      Consumer.process_widget_request isSQS noFaults rd st =
        Except.ok (st', Report.createOk) ∧
      s3Lookup st'.s3 (widgetKey (slug rd.request.owner) rd.request.widgetId) =
        some rd.request ∧
      getItem st'.dynamo (rd.request.widgetId, rd.request.owner) =
        some (DynamoDBClient.widgetItem rd.request) ∧
      getField (DynamoDBClient.widgetItem rd.request) "widget_id" =
        some rd.request.widgetId ∧
      getField (DynamoDBClient.widgetItem rd.request) "owner" = some rd.request.owner ∧
      getField (DynamoDBClient.widgetItem rd.request) "label" = some rd.request.label ∧
      getField (DynamoDBClient.widgetItem rd.request) "description" =
        some rd.request.description ∧
      ∀ a ∈ rd.request.otherAttributes,
        getField (DynamoDBClient.widgetItem rd.request) a.name = some a.value := by
  obtain ⟨hf1, hf2, hf3, hf4⟩ := getField_widgetItem_reserved rd.request hres
  refine ⟨_, process_create_eq isSQS rd st hty, ?_, ?_, hf1, hf2, hf3, hf4, ?_⟩
  · exact s3Lookup_putObject_self st.s3 _ rd.request
  · show getItem (putItem st.dynamo (DynamoDBClient.widgetItem rd.request)) _ = _
    rw [← itemKey_widgetItem rd.request hres]
    exact getItem_putItem_self st.dynamo _
  · intro a ha
    obtain ⟨s, t, hst⟩ := List.append_of_mem ha
    have hnot : a.name ∉ t.map WAttr.name := by
      rw [hst, List.map_append, List.map_cons] at hnodup
      exact ((List.nodup_cons.mp hnodup.of_append_right).1)
    have hlast : ∀ b ∈ t, b.name ≠ a.name := by
      intro b hb heq
      exact hnot (heq ▸ List.mem_map_of_mem WAttr.name hb)
    unfold DynamoDBClient.widgetItem
    rw [hst]
    exact getField_fold_last s t a _ hlast

theorem create_request_spec_witness :
    ∃ st' : SysState,
      Consumer.process_widget_request false noFaults { request := wJohn, receipt := none }
        st0 = Except.ok (st', Report.createOk) ∧
      s3Lookup st'.s3 (widgetKey (slug wJohn.owner) wJohn.widgetId) = some wJohn ∧
      getItem st'.dynamo (wJohn.widgetId, wJohn.owner) =
        some (DynamoDBClient.widgetItem wJohn) ∧
      getField (DynamoDBClient.widgetItem wJohn) "widget_id" = some wJohn.widgetId ∧
      getField (DynamoDBClient.widgetItem wJohn) "owner" = some wJohn.owner ∧
      getField (DynamoDBClient.widgetItem wJohn) "label" = some wJohn.label ∧
      getField (DynamoDBClient.widgetItem wJohn) "description" =
        some wJohn.description ∧
      ∀ a ∈ wJohn.otherAttributes,
        getField (DynamoDBClient.widgetItem wJohn) a.name = some a.value :=
  create_request_spec false { request := wJohn, receipt := none } st0 rfl
    (by decide) (by decide)

/-! ### Delete/Update outcome reporting and acknowledgment (claim C4) -/

/-- Claim C4: a delete or update request is reported a success exactly when
both the S3-side call and the DynamoDB-side call return `true`; otherwise the
corresponding failure is reported.  In the queue variant the receipt handle is
acknowledged exactly once regardless of the boolean outcomes; without a queue
source (or without a receipt handle) nothing is acknowledged. -/
theorem delete_update_success_iff (isSQS : Bool) (f : Faults) (rd : RequestData)
    (st : SysState)
    (hdu : rd.request.type = "delete" ∨ rd.request.type = "update") :
    ∃ (st' : SysState) (rep : Report),
      Consumer.process_widget_request isSQS f rd st = Except.ok (st', rep) ∧
      (rd.request.type = "delete" →
        (rep = Report.deleteOk ↔
          (S3Client.delete_widget f.s3DeleteRaises st.s3 (slug rd.request.owner)
            rd.request.widgetId).2 = true ∧
          (DynamoDBClient.delete_widget f.dynDeleteRaises st.dynamo
            rd.request.widgetId (slug rd.request.owner)).2 = true) ∧
        (rep = Report.deleteOk ∨ rep = Report.deleteFail)) ∧
      (rd.request.type = "update" →
        (rep = Report.updateOk ↔
          (S3Client.update_widget f.s3HeadRaises f.s3UpdatePutRaises st.s3
            rd.request (slug rd.request.owner) rd.request.widgetId).2.1 = true ∧
          (DynamoDBClient.update_widget f.dynGetRaises f.dynUpdatePutRaises
            st.dynamo rd.request).2 = true) ∧
        (rep = Report.updateOk ∨ rep = Report.updateFail)) ∧
      (∀ tok, isSQS = true → rd.receipt = some tok → st'.acked = st.acked ++ [tok]) ∧
      ((isSQS = false ∨ rd.receipt = none) → st'.acked = st.acked) := by
  rcases hdu with hty | hty
  · refine ⟨_, _, process_delete_eq isSQS f rd st hty, ?_, ?_, ?_, ?_⟩
    · intro _
      constructor
      · cases hs3 : (S3Client.delete_widget f.s3DeleteRaises st.s3 (slug rd.request.owner)
            rd.request.widgetId).2 <;>
          cases hdy : (DynamoDBClient.delete_widget f.dynDeleteRaises st.dynamo
            rd.request.widgetId (slug rd.request.owner)).2 <;>
          simp [hs3, hdy]
      · cases hs3 : (S3Client.delete_widget f.s3DeleteRaises st.s3 (slug rd.request.owner)
            rd.request.widgetId).2 <;>
          cases hdy : (DynamoDBClient.delete_widget f.dynDeleteRaises st.dynamo
            rd.request.widgetId (slug rd.request.owner)).2 <;>
          simp [hs3, hdy]
    · intro hup
      rw [hty] at hup
      exact absurd hup (by decide)
    · intro tok hsqs hrec
      simp [hsqs, hrec, ackList]
    · intro h
      rcases h with h | h <;> simp [h, ackList]
  · refine ⟨_, _, process_update_eq isSQS f rd st hty, ?_, ?_, ?_, ?_⟩
    · intro hdel
      rw [hty] at hdel
      exact absurd hdel (by decide)
    · intro _
      constructor
      · cases hs3 : (S3Client.update_widget f.s3HeadRaises f.s3UpdatePutRaises st.s3
            rd.request (slug rd.request.owner) rd.request.widgetId).2.1 <;>
          cases hdy : (DynamoDBClient.update_widget f.dynGetRaises f.dynUpdatePutRaises
            st.dynamo rd.request).2 <;>
          simp [hs3, hdy]
      · cases hs3 : (S3Client.update_widget f.s3HeadRaises f.s3UpdatePutRaises st.s3
            rd.request (slug rd.request.owner) rd.request.widgetId).2.1 <;>
          cases hdy : (DynamoDBClient.update_widget f.dynGetRaises f.dynUpdatePutRaises
            st.dynamo rd.request).2 <;>
          simp [hs3, hdy]
    · intro tok hsqs hrec
      simp [hsqs, hrec, ackList]
    · intro h
      rcases h with h | h <;> simp [h, ackList]

theorem delete_update_success_iff_witness :
    ∃ (st' : SysState) (rep : Report),
      Consumer.process_widget_request true { noFaults with s3DeleteRaises := true }
        { request := delJohn, receipt := some "tok1" } st0 = Except.ok (st', rep) ∧
      (delJohn.type = "delete" →
        (rep = Report.deleteOk ↔
          (S3Client.delete_widget true st0.s3 (slug delJohn.owner)
            delJohn.widgetId).2 = true ∧
          (DynamoDBClient.delete_widget false st0.dynamo
            delJohn.widgetId (slug delJohn.owner)).2 = true) ∧
        (rep = Report.deleteOk ∨ rep = Report.deleteFail)) ∧
      (delJohn.type = "update" →
        (rep = Report.updateOk ↔
          (S3Client.update_widget false false st0.s3
            delJohn (slug delJohn.owner) delJohn.widgetId).2.1 = true ∧
          (DynamoDBClient.update_widget false false st0.dynamo delJohn).2 = true) ∧
        (rep = Report.updateOk ∨ rep = Report.updateFail)) ∧
      (∀ tok, true = true → (some "tok1" : Option String) = some tok →
        st'.acked = st0.acked ++ [tok]) ∧
      ((true = false ∨ (some "tok1" : Option String) = none) → st'.acked = st0.acked) :=
  delete_update_success_iff true { noFaults with s3DeleteRaises := true }
    { request := delJohn, receipt := some "tok1" } st0 (Or.inl rfl)

/-! ### Unknown request kinds (claim C8) -/

/-- Claim C8: a request whose kind is none of create, update or delete leaves
both stores untouched and is reported as ignored, while the source message is
still acknowledged exactly as for a recognized kind (once, when the source is
the queue and a receipt handle is present). -/
theorem unknown_kind_noop (isSQS : Bool) (f : Faults) (rd : RequestData) (st : SysState)
    (h1 : rd.request.type ≠ "create") (h2 : rd.request.type ≠ "delete")
    (h3 : rd.request.type ≠ "update") :
    ∃ st' : SysState,
      Consumer.process_widget_request isSQS f rd st = Except.ok (st', Report.ignored) ∧
      st'.s3 = st.s3 ∧ st'.dynamo = st.dynamo ∧
      (∀ tok, isSQS = true → rd.receipt = some tok → st'.acked = st.acked ++ [tok]) ∧
      ((isSQS = false ∨ rd.receipt = none) → st'.acked = st.acked) := by
  refine ⟨_, process_unknown_eq isSQS f rd st h1 h2 h3, rfl, rfl, ?_, ?_⟩
  · intro tok hsqs hrec
    simp [hsqs, hrec, ackList]
  · intro h
    rcases h with h | h <;> simp [h, ackList]

theorem unknown_kind_noop_witness :
    ∃ st' : SysState,
      Consumer.process_widget_request true noFaults
        { request := unknownJohn, receipt := some "tok2" } st0 =
        Except.ok (st', Report.ignored) ∧
      st'.s3 = st0.s3 ∧ st'.dynamo = st0.dynamo ∧
      (∀ tok, true = true → (some "tok2" : Option String) = some tok →
        st'.acked = st0.acked ++ [tok]) ∧
      ((true = false ∨ (some "tok2" : Option String) = none) →
        st'.acked = st0.acked) :=
  unknown_kind_noop true noFaults { request := unknownJohn, receipt := some "tok2" }
    st0 (by decide) (by decide) (by decide)

/-! ### The delete invariant fails: the DynamoDB record survives (claim C1) -/

/-- Claim C1 (refuted — code bug): create stores the DynamoDB record keyed by
the request's original owner string (`"John Doe"`), but delete deletes the key
built from the slugged owner (`"john-doe"`).  Evaluating the code on the
spec's own scenario: after a create of widget 123 for owner "John Doe"
followed by a delete of the same widget and owner, the delete is reported
successful and the blob is gone, yet the record stored by the create is still
present in the table. -/
theorem delete_leaves_record_behind :
    ∃ st1 st2 : SysState,
      Consumer.process_widget_request false noFaults
        { request := wJohn, receipt := none } st0 = Except.ok (st1, Report.createOk) ∧
      Consumer.process_widget_request false noFaults
        { request := delJohn, receipt := none } st1 = Except.ok (st2, Report.deleteOk) ∧
      s3Lookup st2.s3 (widgetKey (slug wJohn.owner) wJohn.widgetId) = none ∧
      getItem st2.dynamo (wJohn.widgetId, wJohn.owner) =
        some (DynamoDBClient.widgetItem wJohn) := by
  refine ⟨{ s3 := [("widgets/john-doe/123", wJohn)],
            dynamo := [(("123", "John Doe"), DynamoDBClient.widgetItem wJohn)],
            acked := [] },
          { s3 := [],
            dynamo := [(("123", "John Doe"), DynamoDBClient.widgetItem wJohn)],
            acked := [] }, ?_, ?_, ?_, ?_⟩ <;> decide

end WidgetConsumer
